import Mathlib

set_option maxRecDepth 4000

/-!
Formal model of the snowflake-developer-kit SQL statement builders, response
normalization, credential resolution and middleware, together with theorems
about their behavior.  Python machinery is embedded shallowly:

* a `DMLManager` instance holding an open connection is modelled by passing an
  explicit `Conn` value (a function from SQL text to the driver outcome) to
  each manager operation;
* an operation that may raise is modelled as returning `Except`, paired with
  the list of SQL statements that reached the connection (the execution
  trace), so that "fails before any SQL execution" is the trace being `[]`;
* Python truthiness of optional strings and lists, `str.split`, `str.strip`,
  `str.lower`, `str.join` and the `in` substring test are modelled by the
  `py_`-prefixed helpers below;
* Python floats are carried as the text `str(float)` would produce, since the
  only operation ever applied to a value is `str`.
-/

namespace SnowflakeKit

/-- Python `str` truthiness for an optional string: `None` and `""` are falsy. -/
def truthyStr : Option String → Bool
  | none => false
  | some s => s != ""

/-- Python truthiness for an optional list: `None` and `[]` are falsy. -/
def truthyList {α : Type} : Option (List α) → Bool
  | none => false
  | some l => !l.isEmpty

/-- Python `a or b` on optional strings: `a` when truthy, else `b`. -/
def py_or (a b : Option String) : Option String :=
  if truthyStr a then a else b

/-- ASCII whitespace stripped by Python `str.strip()`. -/
def isPySpace (c : Char) : Bool :=
  c == ' ' || c == '\t' || c == '\n' || c == '\r' || c == '\x0b' || c == '\x0c'

/-- Python `s.strip()` (ASCII whitespace). -/
def py_strip (s : String) : String :=
  ⟨((s.data.dropWhile isPySpace).reverse.dropWhile isPySpace).reverse⟩

/-- Split a character list on a separator character, Python `str.split(sep)`
semantics: the empty list splits into one empty group. -/
def splitChars (sep : Char) : List Char → List (List Char)
  | [] => [[]]
  | c :: rest =>
    match splitChars sep rest with
    | [] => [[]]
    | g :: gs => if c = sep then [] :: g :: gs else (c :: g) :: gs

/-- Python `s.split(sep)` for a one-character separator. -/
def py_split (sep : Char) (s : String) : List String :=
  (splitChars sep s.data).map (fun l => ⟨l⟩)

/-- Python `s.lower()` (ASCII letters). -/
def py_lower (s : String) : String :=
  ⟨s.data.map Char.toLower⟩

/-- Python `sep.join(l)`. -/
def join_sep (sep : String) : List String → String
  | [] => ""
  | [x] => x
  | x :: y :: rest => x ++ sep ++ join_sep sep (y :: rest)

/-- Number of occurrences of `p` as a contiguous sublist of `s`
(start positions at which `p` is a prefix of the corresponding suffix). -/
def countOcc (p : List Char) : List Char → Nat
  | [] => 0
  | c :: s => (if p.isPrefixOf (c :: s) then 1 else 0) + countOcc p s

/-- Python `p in s` substring test. -/
def py_in (p s : String) : Bool :=
  s.data.tails.any (fun t => p.data.isPrefixOf t)

/-- A typed parameter value as received by the DML manager.  Python floats are
represented by the text `str` produces for them. -/
inductive Value where
  | vNull : Value
  | vBool (b : Bool) : Value
  | vInt (n : Int) : Value
  | vFloat (text : String) : Value
  | vStr (s : String) : Value
deriving DecidableEq

/-- Python `str(value)`. -/
def py_str : Value → String
  | .vNull => "None"
  | .vBool b => if b then "True" else "False"
  | .vInt n => toString n
  | .vFloat t => t
  | .vStr s => s

/-- Python `isinstance(val, (int, float))`.  `bool` is a subclass of `int` in
Python, so boolean values satisfy this test. -/
def isInstIntFloat : Value → Bool
  | .vInt _ => true
  | .vFloat _ => true
  | .vBool _ => true
  | _ => false

/-- Python `isinstance(val, bool)`. -/
def isInstBool : Value → Bool
  | .vBool _ => true
  | _ => false

/-- The value formatter used (with identical branch order) by `insert_data`,
`update_data` and the two MERGE action bodies in `dml_manager.py`:
`None` first, then the `isinstance(val, (int, float))` branch, then the
`isinstance(val, bool)` branch, else a single-quoted string.  Because the
`(int, float)` test also accepts booleans, the boolean branch is unreachable. -/
def formatValue (val : Value) : String :=
  if val = .vNull then "NULL"
  else if isInstIntFloat val then py_str val
  else if isInstBool val then
    (match val with
     | .vBool b => if b then "TRUE" else "FALSE"
     | _ => "")
  else "\x27" ++ py_str val ++ "\x27"

/-- `DMLException(message, operation, table_name)` from `core/exceptions.py`. -/
structure DMLException where
  message : String
  operation : String
  table_name : String
deriving DecidableEq

/-- `ValidationException(message, field_name, provided_value)` from
`core/exceptions.py`. -/
structure ValidationException where
  message : String
  field_name : String
  provided_value : String
deriving DecidableEq

/-- The uniform raw result dictionary produced by `DMLManager.execute_dml`. -/
structure RawResult where
  success : Bool
  message : String
  results : List String
  rows_affected : Int
deriving DecidableEq

/-- The warehouse connection capability: given SQL text, either the driver
outcome (already-stringified fetched rows, plus the reported rowcount) or a
driver error message. -/
def Conn : Type := String → Except String (List String × Int)

/-- `DMLManager.execute_dml`: run the statement on the connection; wrap any
driver failure in a `DMLException` tagged `EXECUTE` carrying the statement.
The second component is the execution trace (statements that reached the
connection). -/
def execute_dml (conn : Conn) (dml : String) :
    Except DMLException RawResult × List String :=
  match conn dml with
  | .ok (rows, rc) =>
    (.ok { success := true
           message := "DML operation executed successfully"
           results := rows
           rows_affected := rc }, [dml])
  | .error e =>
    (.error ⟨"Error executing DML: " ++ e, "EXECUTE", dml⟩, [dml])

/-- `DMLManager.select_data`. -/
def select_data (conn : Conn) (table_name : String) (columns : Option (List String))
    (where_clause : Option String) (order_by : Option (List String))
    (limit offset : Option Int) :
    Except DMLException RawResult × List String :=
  if (py_split '.' table_name).length ≠ 3 then
    (.error ⟨"Table name must be fully qualified as \x27database.schema.table\x27",
             "SELECT", table_name⟩, [])
  else
    let cols := if !truthyList columns then "*" else join_sep ", " (columns.getD [])
    let dml := "SELECT " ++ cols ++ " FROM " ++ table_name
    let dml := if truthyStr where_clause then dml ++ " WHERE " ++ where_clause.getD "" else dml
    let dml := if truthyList order_by then dml ++ " ORDER BY " ++ join_sep ", " (order_by.getD []) else dml
    let dml := match limit with
               | some l => dml ++ " LIMIT " ++ toString l
               | none => dml
    let dml := match offset with
               | some o => dml ++ " OFFSET " ++ toString o
               | none => dml
    execute_dml conn dml

/-- `DMLManager.insert_data`. -/
def insert_data (conn : Conn) (table_name : String) (columns : List String)
    (values : List Value) :
    Except DMLException RawResult × List String :=
  if (py_split '.' table_name).length ≠ 3 then
    (.error ⟨"Table name must be fully qualified as \x27database.schema.table\x27",
             "INSERT", table_name⟩, [])
  else if columns.length ≠ values.length then
    (.error ⟨"Number of columns does not match number of values", "INSERT", table_name⟩, [])
  else
    execute_dml conn
      ("\n        INSERT INTO " ++ table_name ++ " (" ++ join_sep ", " columns ++
       ")\n        VALUES (" ++ join_sep ", " (values.map formatValue) ++ ")\n        ")

/-- One `col = formatted-value` item of an UPDATE SET list. -/
def set_clause_item (col : String) (v : Value) : String :=
  col ++ " = " ++ formatValue v

/-- `DMLManager.update_data`. -/
def update_data (conn : Conn) (table_name : String) (set_columns : List String)
    (set_values : List Value) (where_clause : String) :
    Except DMLException RawResult × List String :=
  if (py_split '.' table_name).length ≠ 3 then
    (.error ⟨"Table name must be fully qualified as \x27database.schema.table\x27",
             "UPDATE", table_name⟩, [])
  else if set_columns.length ≠ set_values.length then
    (.error ⟨"Number of columns does not match number of values", "UPDATE", table_name⟩, [])
  else
    execute_dml conn
      ("\n        UPDATE " ++ table_name ++ "\n        SET " ++
       join_sep ", " ((set_columns.zip set_values).map (fun cv => set_clause_item cv.1 cv.2)) ++
       "\n        WHERE " ++ where_clause ++ "\n        ")

/-- `DMLManager.delete_data`: requires a non-blank WHERE clause. -/
def delete_data (conn : Conn) (table_name : String) (where_clause : String) :
    Except DMLException RawResult × List String :=
  if (py_split '.' table_name).length ≠ 3 then
    (.error ⟨"Table name must be fully qualified as \x27database.schema.table\x27",
             "DELETE", table_name⟩, [])
  else if where_clause == "" || py_strip where_clause == "" then
    (.error ⟨"WHERE clause is required for DELETE operations to prevent accidental data loss",
             "DELETE", table_name⟩, [])
  else
    execute_dml conn
      ("\n        DELETE FROM " ++ table_name ++ "\n        WHERE " ++ where_clause ++
       "\n        ")

/-- A MERGE action entry: the Python dict with keys `action`, `columns`,
`values`. -/
structure MergeAction where
  action : String
  columns : List String
  values : List Value
deriving DecidableEq

/-- The WHEN MATCHED clauses appended by the loop in `DMLManager.merge_data`:
an UPDATE action with mismatched lists raises, a DELETE action appends a fixed
clause, any other tag is silently ignored. -/
def merge_matched_clauses (target_table : String) :
    List MergeAction → Except DMLException String
  | [] => .ok ""
  | a :: rest =>
    if a.action = "UPDATE" then
      if a.columns.length ≠ a.values.length then
        .error ⟨"Number of columns does not match number of values in WHEN MATCHED UPDATE action",
                "MERGE", target_table⟩
      else
        match merge_matched_clauses target_table rest with
        | .error e => .error e
        | .ok r =>
          .ok ("\nWHEN MATCHED THEN UPDATE SET " ++
               join_sep ", " ((a.columns.zip a.values).map (fun cv => set_clause_item cv.1 cv.2)) ++ r)
    else if a.action = "DELETE" then
      match merge_matched_clauses target_table rest with
      | .error e => .error e
      | .ok r => .ok ("\nWHEN MATCHED THEN DELETE" ++ r)
    else
      merge_matched_clauses target_table rest

/-- The WHEN NOT MATCHED clauses appended by `DMLManager.merge_data`: an
INSERT action with mismatched lists raises, any other tag is ignored. -/
def merge_not_matched_clauses (target_table : String) :
    List MergeAction → Except DMLException String
  | [] => .ok ""
  | a :: rest =>
    if a.action = "INSERT" then
      if a.columns.length ≠ a.values.length then
        .error ⟨"Number of columns does not match number of values in WHEN NOT MATCHED INSERT action",
                "MERGE", target_table⟩
      else
        match merge_not_matched_clauses target_table rest with
        | .error e => .error e
        | .ok r =>
          .ok ("\nWHEN NOT MATCHED THEN INSERT (" ++ join_sep ", " a.columns ++
               ") VALUES (" ++ join_sep ", " (a.values.map formatValue) ++ ")" ++ r)
    else
      merge_not_matched_clauses target_table rest

/-- The MERGE statement header built by `DMLManager.merge_data` before any
WHEN clause is appended. -/
def merge_header (target_table source_table merge_condition : String) : String :=
  "\n        MERGE INTO " ++ target_table ++ " AS target\n        USING " ++
  source_table ++ " AS source\n        ON " ++ merge_condition ++ "\n        "

/-- `DMLManager.merge_data`. -/
def merge_data (conn : Conn) (target_table source_table merge_condition : String)
    (match_actions : List MergeAction)
    (not_match_actions : Option (List MergeAction)) :
    Except DMLException RawResult × List String :=
  if (py_split '.' target_table).length ≠ 3 then
    (.error ⟨"Target table name must be fully qualified as \x27database.schema.table\x27",
             "MERGE", target_table⟩, [])
  else
    let header := merge_header target_table source_table merge_condition
    match merge_matched_clauses target_table match_actions with
    | .error e => (.error e, [])
    | .ok mc =>
      match (match not_match_actions with
             | none => (.ok "" : Except DMLException String)
             | some l => merge_not_matched_clauses target_table l) with
      | .error e => (.error e, [])
      | .ok nmc => execute_dml conn (header ++ mc ++ nmc)

/-- The process environment, as read by `os.getenv`. -/
structure Env where
  get : String → Option String

/-- Account resolution in `get_snowflake_connection`:
`account_identifier or os.getenv("SNOWFLAKE_ACCOUNT")`. -/
def resolved_account (env : Env) (arg : Option String) : Option String :=
  py_or arg (env.get "SNOWFLAKE_ACCOUNT")

/-- Username resolution: `username or os.getenv("SNOWFLAKE_USER")`. -/
def resolved_username (env : Env) (arg : Option String) : Option String :=
  py_or arg (env.get "SNOWFLAKE_USER")

/-- Secret resolution:
`password or os.getenv("SNOWFLAKE_PAT") or os.getenv("SNOWFLAKE_PASSWORD")`. -/
def resolved_password (env : Env) (arg : Option String) : Option String :=
  py_or arg (py_or (env.get "SNOWFLAKE_PAT") (env.get "SNOWFLAKE_PASSWORD"))

def missing_account_msg : String := "account_identifier (or SNOWFLAKE_ACCOUNT env var)"

def missing_username_msg : String := "username (or SNOWFLAKE_USER env var)"

def missing_password_msg : String := "password (or SNOWFLAKE_PAT/SNOWFLAKE_PASSWORD env var)"

/-- The `missing` list accumulated by `get_snowflake_connection`, in the order
account, username, password. -/
def missing_credentials (env : Env) (a u p : Option String) : List String :=
  (if !truthyStr (resolved_account env a) then [missing_account_msg] else []) ++
  (if !truthyStr (resolved_username env u) then [missing_username_msg] else []) ++
  (if !truthyStr (resolved_password env p) then [missing_password_msg] else [])

/-- `core/snowflake_utils.get_snowflake_connection`: resolve the three
credentials, raise `MissingArgumentsException(missing)` if any is unresolved.
The actual call into `snowflake.connector.connect` is the external collaborator
boundary; the model returns the resolved credential triple it would pass on. -/
def get_snowflake_connection (env : Env)
    (account_identifier username password : Option String) :
    Except (List String) (String × String × String) :=
  let missing := missing_credentials env account_identifier username password
  if missing ≠ [] then .error missing
  else .ok ((resolved_account env account_identifier).getD "",
            (resolved_username env username).getD "",
            (resolved_password env password).getD "")

/-- `dml_tools.get_snowflake_credentials`: environment-only credential lookup
used by the DML tools, raising a single `ValidationException` when any of the
three is unset. -/
def get_snowflake_credentials (env : Env) :
    Except ValidationException (String × String × String) :=
  let account := env.get "SNOWFLAKE_ACCOUNT"
  let user := env.get "SNOWFLAKE_USER"
  let pat := py_or (env.get "SNOWFLAKE_PAT") (env.get "SNOWFLAKE_PASSWORD")
  if !truthyStr account || !truthyStr user || !truthyStr pat then
    .error ⟨"Missing required Snowflake credentials: SNOWFLAKE_ACCOUNT, SNOWFLAKE_USER, and SNOWFLAKE_PAT/SNOWFLAKE_PASSWORD",
            "credentials", "environment"⟩
  else .ok (account.getD "", user.getD "", pat.getD "")

/-- A tool-level failure: either a `ValidationException` or a wrapped
`DMLException` (both surface as `ToolError` in `dml_tools.py`). -/
inductive ToolErr where
  | validation (e : ValidationException)
  | dml (e : DMLException)
deriving DecidableEq

/-- The `update_data` tool from `dml_tools.py`: after credential lookup it
builds `UPDATE {table} SET {set_clause} WHERE {where_clause}` and hands it
directly to `execute_dml`, bypassing `DMLManager.update_data` and its table
validation ("executes the raw SET clause" per the inline comment). -/
def tool_update_data (env : Env) (conn : Conn)
    (table_name set_clause where_clause : String) :
    Except ToolErr RawResult × List String :=
  match get_snowflake_credentials env with
  | .error e => (.error (.validation e), [])
  | .ok _ =>
    match execute_dml conn
        ("UPDATE " ++ table_name ++ " SET " ++ set_clause ++ " WHERE " ++ where_clause) with
    | (.error e, tr) => (.error (.dml e), tr)
    | (.ok r, tr) =>
      if !r.success then (.error (.dml ⟨r.message, "UPDATE", table_name⟩), tr)
      else (.ok r, tr)

/-- The `merge_data` tool from `dml_tools.py`: validates the target, source,
condition and the non-emptiness of `match_actions` before credential lookup,
manager construction and `DMLManager.merge_data`. -/
def tool_merge_data (env : Env) (conn : Conn)
    (target_table source_table merge_condition : String)
    (match_actions : List MergeAction)
    (not_match_actions : Option (List MergeAction)) :
    Except ToolErr RawResult × List String :=
  if target_table == "" || py_strip target_table == "" then
    (.error (.validation ⟨"Target table name cannot be empty", "target_table", target_table⟩), [])
  else if source_table == "" || py_strip source_table == "" then
    (.error (.validation ⟨"Source table name cannot be empty", "source_table", source_table⟩), [])
  else if merge_condition == "" || py_strip merge_condition == "" then
    (.error (.validation ⟨"Merge condition cannot be empty", "merge_condition", merge_condition⟩), [])
  else if match_actions.isEmpty then
    (.error (.validation ⟨"At least one match action is required", "match_actions", "[]"⟩), [])
  else
    match get_snowflake_credentials env with
    | .error e => (.error (.validation e), [])
    | .ok _ =>
      match merge_data conn target_table source_table merge_condition
              match_actions not_match_actions with
      | (.error e, tr) => (.error (.dml e), tr)
      | (.ok r, tr) =>
        if !r.success then (.error (.dml ⟨r.message, "MERGE", target_table⟩), tr)
        else (.ok r, tr)

/-- A raw result dictionary as passed to the response parser: every field may
be absent (pydantic has no default for any `DMLResponse` field). -/
structure RawDict where
  success : Option Bool
  message : Option String
  results : Option (List String)
  rows_affected : Option Int
deriving DecidableEq

/-- The `DMLResponse` pydantic model from `core/models.py`:
`success`, `message`, `results`, `rows_affected`, all required. -/
structure DMLResponse where
  success : Bool
  message : String
  results : List String
  rows_affected : Int
deriving DecidableEq

/-- `SnowflakeResponse.parse_dml_response`: `DMLResponse(**response)` followed
by serialization.  Pydantic raises a `ValidationError` when a required field
is missing from the keyword arguments, rather than supplying a default; the
model returns the validated envelope instead of its JSON text. -/
def parse_dml_response (r : RawDict) : Except ValidationException DMLResponse :=
  match r.success, r.message, r.results, r.rows_affected with
  | some s, some m, some rs, some ra => .ok ⟨s, m, rs, ra⟩
  | _, _, _, _ =>
    .error ⟨"validation error: missing required field for DMLResponse", "DMLResponse", ""⟩

/-- The keyword set scanned by `SnowflakeSecurityMiddleware` (a Python set
literal; listed here in its source order). -/
def DANGEROUS_KEYWORDS : List String :=
  ["drop database", "drop warehouse", "truncate", "delete from",
   "alter user", "create user", "drop user", "grant", "revoke"]

/-- The argument names treated as SQL-bearing by the security middleware. -/
def sql_fields : List String :=
  ["ddl_statement", "sql_statement", "query", "statement"]

/-- The middleware context: tool name and the argument mapping. -/
structure MiddlewareCtx where
  tool_name : String
  arguments : List (String × String)

/-- Python `args[field]` lookup (`field in args` + access). -/
def lookup_arg (args : List (String × String)) (f : String) : Option String :=
  (args.find? (fun kv => kv.1 == f)).map (fun kv => kv.2)

/-- The warnings the security middleware emits for one SQL-bearing field:
a falsy (absent or empty) argument is skipped; otherwise the lowered text is
scanned and the first matching keyword produces one warning (the inner loop
breaks after the first match). -/
def field_warnings (ctx : MiddlewareCtx) (field : String) : List String :=
  match lookup_arg ctx.arguments field with
  | none => []
  | some v =>
    if v == "" then []
    else
      match DANGEROUS_KEYWORDS.find? (fun k => py_in k (py_lower v)) with
      | some k =>
        ["Potentially dangerous SQL operation detected in tool \x27" ++
         ctx.tool_name ++ "\x27: " ++ k]
      | none => []

/-- All warnings emitted by `SnowflakeSecurityMiddleware.on_call_tool` for one
invocation, in field order. -/
def security_warnings (ctx : MiddlewareCtx) : List String :=
  (sql_fields.map (field_warnings ctx)).flatten

/-- `SnowflakeSecurityMiddleware.on_call_tool`: emit the warnings, then always
`return await call_next(context)` with the context unchanged. -/
def security_on_call_tool {α : Type} (ctx : MiddlewareCtx)
    (call_next : MiddlewareCtx → α) : List String × α :=
  (security_warnings ctx, call_next ctx)

/-- The WHEN MATCHED clause keyword text whose occurrences C5 counts. -/
def matched_marker : String := "WHEN MATCHED THEN UPDATE SET"

/-- The WHEN NOT MATCHED clause keyword text whose occurrences C5 counts. -/
def not_matched_marker : String := "WHEN NOT MATCHED THEN INSERT"

/-! ### Helper lemmas -/

/-- The execution trace of `execute_dml` is the single submitted statement,
whatever the driver outcome. -/
theorem execute_dml_trace (conn : Conn) (dml : String) :
    (execute_dml conn dml).2 = [dml] := by
  unfold execute_dml
  rcases conn dml with ⟨rows, rc⟩ | e <;> rfl

theorem string_eq_of_data {a b : String} (h : a.data = b.data) : a = b := by
  cases a with
  | mk l1 =>
    cases b with
    | mk l2 => exact congrArg String.mk h

theorem countOcc_cons (p : List Char) (c : Char) (s : List Char) :
    countOcc p (c :: s) = (if p.isPrefixOf (c :: s) then 1 else 0) + countOcc p s := rfl

/-- No occurrence of a pattern starting with `c` can begin inside a region
free of `c`. -/
theorem countOcc_skip {c : Char} (p : List Char) {a : List Char} (b : List Char)
    (h : c ∉ a) : countOcc (c :: p) (a ++ b) = countOcc (c :: p) b := by
  induction a with
  | nil => rfl
  | cons x xs ih =>
    have hxc : (c == x) = false := by
      have : x ≠ c := fun hx => h (hx ▸ List.mem_cons_self x xs)
      simp [this.symm]
    have hpre : (c :: p).isPrefixOf (x :: (xs ++ b)) = false := by
      simp [List.isPrefixOf, hxc]
    have hxs : c ∉ xs := fun hx => h (List.mem_cons_of_mem x hx)
    calc countOcc (c :: p) ((x :: xs) ++ b)
        = (if (c :: p).isPrefixOf (x :: (xs ++ b)) then 1 else 0) +
            countOcc (c :: p) (xs ++ b) := rfl
      _ = countOcc (c :: p) (xs ++ b) := by rw [hpre]; simp
      _ = countOcc (c :: p) b := ih hxs

theorem countOcc_eq_zero {c : Char} (p : List Char) {a : List Char}
    (h : c ∉ a) : countOcc (c :: p) a = 0 := by
  have := countOcc_skip (b := []) p h
  simpa using this

theorem isPrefixOf_self_append (p b : List Char) : p.isPrefixOf (p ++ b) = true := by
  induction p with
  | nil => simp [List.isPrefixOf]
  | cons x xs ih => simp [List.isPrefixOf, ih]

theorem isPrefixOf_append_of_le (p : List Char) :
    ∀ (a b : List Char), p.length ≤ a.length →
      p.isPrefixOf (a ++ b) = p.isPrefixOf a := by
  induction p with
  | nil => intro a b _; simp [List.isPrefixOf]
  | cons x xs ih =>
    intro a b h
    cases a with
    | nil => simp at h
    | cons y ys =>
      have h' : xs.length ≤ ys.length := by simpa using h
      simp [List.isPrefixOf, ih ys b h']

/-- A flatten is nonempty as soon as one member list is. -/
theorem flatten_ne_nil_of_mem {l : List (List String)} {x : List String}
    (hx : x ∈ l) (hne : x ≠ []) : l.flatten ≠ [] := by
  induction l with
  | nil => cases hx
  | cons y ys ih =>
    intro hcontra
    rw [List.flatten_cons] at hcontra
    have hy := (List.append_eq_nil.mp hcontra).1
    have hys := (List.append_eq_nil.mp hcontra).2
    rcases List.mem_cons.mp hx with h | h
    · exact hne (h ▸ hy)
    · exact ih h hys

/-- `join_sep` preserves absence of a character present in none of the
joined strings nor the separator. -/
theorem not_mem_join_sep {ch : Char} (sep : String) (l : List String)
    (hsep : ch ∉ sep.data) (h : ∀ x ∈ l, ch ∉ x.data) :
    ch ∉ (join_sep sep l).data := by
  induction l with
  | nil => simp [join_sep]
  | cons x xs ih =>
    cases xs with
    | nil =>
      have e : join_sep sep [x] = x := rfl
      rw [e]
      exact h x (by simp)
    | cons y ys =>
      have hx := h x (by simp)
      have hrest := ih (fun z hz => h z (List.mem_cons_of_mem x hz))
      have e : join_sep sep (x :: y :: ys) = x ++ sep ++ join_sep sep (y :: ys) := rfl
      rw [e]
      simp only [String.data_append, List.mem_append]
      rintro ((hm | hm) | hm)
      · exact hx hm
      · exact hsep hm
      · exact hrest hm

/-! ### Claim theorems -/

/-- C1: the claim states the formatter emits the SQL literals `TRUE` / `FALSE`
for booleans.  On the code, `isinstance(val, (int, float))` accepts booleans
(Python `bool` is a subclass of `int`) and precedes the boolean branch, so the
formatter emits Python `str` text `True` / `False` instead — the `TRUE` /
`FALSE` branch is dead code.  The second half of the claim holds: null,
boolean and numeric values are emitted bare, never quoted. -/
theorem formatValue_bool_dead_branch :
    formatValue (.vBool true) = "True" ∧
    formatValue (.vBool false) = "False" ∧
    "True" ≠ "TRUE" ∧
    isInstBool (.vBool true) = true ∧
    formatValue .vNull = "NULL" ∧
    (∀ n : Int, formatValue (.vInt n) = toString n) ∧
    (∀ t : String, formatValue (.vFloat t) = t) ∧
    (∀ b : Bool, formatValue (.vBool b) = py_str (.vBool b)) ∧
    (∀ s : String, formatValue (.vStr s) = "\x27" ++ s ++ "\x27") := by
  refine ⟨rfl, rfl, by decide, rfl, rfl, ?_, ?_, ?_, ?_⟩
  · intro n; rfl
  · intro t; rfl
  · intro b; cases b <;> rfl
  · intro s; rfl

/-- C6: the DML response normalizer maps the raw result
`{success: true, message: "ok", results: ["a", "b"], rows_affected: 2}` to an
envelope with two results and `rows_affected = 2`, and fails on any raw result
lacking `rows_affected` instead of supplying a default. -/
theorem parse_dml_response_shape :
    (∃ resp, parse_dml_response ⟨some true, some "ok", some ["a", "b"], some 2⟩ = .ok resp ∧
       resp.results.length = 2 ∧ resp.rows_affected = 2) ∧
    (∀ (s : Option Bool) (m : Option String) (rs : Option (List String)),
       ∃ e, parse_dml_response ⟨s, m, rs, none⟩ = .error e) := by
  constructor
  · exact ⟨⟨true, "ok", ["a", "b"], 2⟩, rfl, rfl, rfl⟩
  · intro s m rs
    cases s <;> cases m <;> cases rs <;> exact ⟨_, rfl⟩

/-- C2: `delete_data` on a valid three-part table rejects every blank
(empty or whitespace-only) WHERE clause before any SQL reaches the connection,
while `where_clause = "id = 1"` executes a statement containing exactly one
WHERE clause whose condition is `id = 1`. -/
theorem delete_data_where_clause_guard :
    (∀ (conn : Conn) (w : String), py_strip w = "" →
       delete_data conn "db.schema.table" w =
         (.error ⟨"WHERE clause is required for DELETE operations to prevent accidental data loss",
                  "DELETE", "db.schema.table"⟩, [])) ∧
    (∀ conn : Conn,
       (delete_data conn "db.schema.table" "id = 1").2 =
         ["\n        DELETE FROM db.schema.table\n        WHERE id = 1\n        "]) ∧
    countOcc "WHERE".data
      "\n        DELETE FROM db.schema.table\n        WHERE id = 1\n        ".data = 1 ∧
    countOcc "WHERE id = 1\n".data
      "\n        DELETE FROM db.schema.table\n        WHERE id = 1\n        ".data = 1 := by
  refine ⟨?_, ?_, by decide, by decide⟩
  · intro conn w hw
    have hb : (w == "" || py_strip w == "") = true := by
      simp [hw]
    unfold delete_data
    rw [if_neg (by decide), if_pos hb]
  · intro conn
    have he : delete_data conn "db.schema.table" "id = 1" =
        execute_dml conn
          "\n        DELETE FROM db.schema.table\n        WHERE id = 1\n        " := by
      unfold delete_data
      rw [if_neg (by decide), if_neg (by decide)]
      rfl
    rw [he, execute_dml_trace]

/-- C2 witness: blank and non-blank WHERE clauses at concrete inputs. -/
theorem delete_data_where_clause_guard_witness :
    delete_data (fun _ => .ok ([], 1)) "db.schema.table" " \t " =
      (.error ⟨"WHERE clause is required for DELETE operations to prevent accidental data loss",
               "DELETE", "db.schema.table"⟩, []) ∧
    (delete_data (fun _ => .ok ([], 1)) "db.schema.table" "id = 1").2 =
      ["\n        DELETE FROM db.schema.table\n        WHERE id = 1\n        "] :=
  ⟨delete_data_where_clause_guard.1 (fun _ => .ok ([], 1)) " \t " (by decide),
   delete_data_where_clause_guard.2.1 (fun _ => .ok ([], 1))⟩

/-- C10: in `select_data`, an empty `where_clause` string or an empty
`columns` list behaves exactly like `None` (no WHERE clause, `SELECT *`),
whereas `limit` and `offset` are compared against `None` only, so zero values
still append `LIMIT 0` / `OFFSET 0`; appended clauses always follow the fixed
order WHERE, ORDER BY, LIMIT, OFFSET. -/
theorem select_data_optional_clause_handling :
    ∀ (conn : Conn) (t : String), (py_split '.' t).length = 3 →
      (∀ ob l o, select_data conn t (some []) (some "") ob l o =
         select_data conn t none none ob l o) ∧
      ((select_data conn t (some []) (some "") none none none).2 =
         ["SELECT * FROM " ++ t]) ∧
      ((select_data conn t none none none (some 0) (some 0)).2 =
         ["SELECT * FROM " ++ t ++ " LIMIT 0 OFFSET 0"]) ∧
      (∀ (cs : List String) (w : String) (ob : List String) (l o : Int),
         cs ≠ [] → w ≠ "" → ob ≠ [] →
         (select_data conn t (some cs) (some w) (some ob) (some l) (some o)).2 =
           ["SELECT " ++ join_sep ", " cs ++ " FROM " ++ t ++ " WHERE " ++ w ++
            " ORDER BY " ++ join_sep ", " ob ++ " LIMIT " ++ toString l ++
            " OFFSET " ++ toString o]) := by
  intro conn t h3
  have hc : ¬((py_split '.' t).length ≠ 3) := fun k => k h3
  refine ⟨?_, ?_, ?_, ?_⟩
  · intro ob l o; rfl
  · have he : select_data conn t (some []) (some "") none none none =
        execute_dml conn ("SELECT * FROM " ++ t) := by
      unfold select_data
      rw [if_neg hc]
      rfl
    rw [he, execute_dml_trace]
  · have he : select_data conn t none none none (some 0) (some 0) =
        execute_dml conn
          ("SELECT " ++ "*" ++ " FROM " ++ t ++ " LIMIT " ++ toString (0 : Int) ++
           " OFFSET " ++ toString (0 : Int)) := by
      unfold select_data
      rw [if_neg hc]
      rfl
    rw [he, execute_dml_trace]
    refine congrArg (fun x => [x]) ?_
    apply string_eq_of_data
    simp only [String.data_append, List.append_assoc]
    rfl
  · intro cs w ob l o hcs hw hob
    rcases cs with _ | ⟨c0, cs'⟩
    · exact absurd rfl hcs
    rcases ob with _ | ⟨o0, ob'⟩
    · exact absurd rfl hob
    have hwb : (truthyStr (some w)) = true := by
      simp [truthyStr, hw]
    have he : select_data conn t (some (c0 :: cs')) (some w) (some (o0 :: ob'))
        (some l) (some o) =
        execute_dml conn
          ("SELECT " ++ join_sep ", " (c0 :: cs') ++ " FROM " ++ t ++ " WHERE " ++ w ++
           " ORDER BY " ++ join_sep ", " (o0 :: ob') ++ " LIMIT " ++ toString l ++
           " OFFSET " ++ toString o) := by
      unfold select_data
      rw [if_neg hc]
      simp only [hwb]
      rfl
    rw [he, execute_dml_trace]

/-- C10 witness: concrete instance with empty-as-absent values, zero limit and
offset, and all clauses present in fixed order. -/
theorem select_data_optional_clause_handling_witness :
    ((select_data (fun _ => .ok ([], 1)) "db.schema.table" (some []) (some "")
        none none none).2 = ["SELECT * FROM db.schema.table"]) ∧
    ((select_data (fun _ => .ok ([], 1)) "db.schema.table" none none none
        (some 0) (some 0)).2 = ["SELECT * FROM db.schema.table LIMIT 0 OFFSET 0"]) ∧
    ((select_data (fun _ => .ok ([], 1)) "db.schema.table" (some ["a", "b"]) (some "id = 1")
        (some ["a"]) (some 5) (some 2)).2 =
      ["SELECT a, b FROM db.schema.table WHERE id = 1 ORDER BY a LIMIT 5 OFFSET 2"]) := by
  have h := select_data_optional_clause_handling (fun _ => .ok ([], 1)) "db.schema.table"
    (by decide)
  refine ⟨?_, ?_, ?_⟩
  · rw [h.2.1]
    rfl
  · rw [h.2.2.1]
    rfl
  · rw [h.2.2.2 ["a", "b"] "id = 1" ["a"] 5 2 (by decide) (by decide) (by decide)]
    rfl

/-! ### Reduction lemmas for the manager operations -/

theorem merge_data_table_error (conn : Conn) (t s c : String)
    (mas : List MergeAction) (nma : Option (List MergeAction))
    (h3 : (py_split '.' t).length ≠ 3) :
    merge_data conn t s c mas nma =
      (.error ⟨"Target table name must be fully qualified as \x27database.schema.table\x27",
               "MERGE", t⟩, []) := by
  unfold merge_data
  rw [if_pos h3]

theorem merge_data_matched_error (conn : Conn) (t s c : String)
    (mas : List MergeAction) (nma : Option (List MergeAction)) (e : DMLException)
    (h3 : (py_split '.' t).length = 3)
    (hm : merge_matched_clauses t mas = .error e) :
    merge_data conn t s c mas nma = (.error e, []) := by
  unfold merge_data
  rw [if_neg (fun k => k h3), hm]

theorem merge_data_not_matched_error (conn : Conn) (t s c : String)
    (mas nmas : List MergeAction) (mc : String) (e : DMLException)
    (h3 : (py_split '.' t).length = 3)
    (hm : merge_matched_clauses t mas = .ok mc)
    (hn : merge_not_matched_clauses t nmas = .error e) :
    merge_data conn t s c mas (some nmas) = (.error e, []) := by
  unfold merge_data
  rw [if_neg (fun k => k h3), hm]
  show (match merge_not_matched_clauses t nmas with
        | Except.error e => (Except.error e, [])
        | Except.ok nmc => execute_dml conn (merge_header t s c ++ mc ++ nmc)) = _
  rw [hn]

theorem merge_data_ok (conn : Conn) (t s c : String)
    (mas nmas : List MergeAction) (mc nmc : String)
    (h3 : (py_split '.' t).length = 3)
    (hm : merge_matched_clauses t mas = .ok mc)
    (hn : merge_not_matched_clauses t nmas = .ok nmc) :
    merge_data conn t s c mas (some nmas) =
      execute_dml conn (merge_header t s c ++ mc ++ nmc) := by
  unfold merge_data
  rw [if_neg (fun k => k h3), hm]
  show (match merge_not_matched_clauses t nmas with
        | Except.error e => (Except.error e, [])
        | Except.ok nmc => execute_dml conn (merge_header t s c ++ mc ++ nmc)) = _
  rw [hn]

/-- A WHEN MATCHED UPDATE action with mismatched lists always surfaces the
length-mismatch failure, wherever it sits in the action list. -/
theorem merge_matched_clauses_mismatch (t : String) :
    ∀ mas : List MergeAction,
      (∃ a ∈ mas, a.action = "UPDATE" ∧ a.columns.length ≠ a.values.length) →
      merge_matched_clauses t mas =
        .error ⟨"Number of columns does not match number of values in WHEN MATCHED UPDATE action",
                "MERGE", t⟩ := by
  intro mas
  induction mas with
  | nil =>
    rintro ⟨a, ha, -⟩
    exact absurd ha (List.not_mem_nil a)
  | cons a rest ih =>
    rintro ⟨b, hb, hbu, hbl⟩
    rcases List.mem_cons.mp hb with hba | hbr
    · subst hba
      unfold merge_matched_clauses
      rw [if_pos hbu, if_pos hbl]
    · by_cases hau : a.action = "UPDATE"
      · by_cases hal : a.columns.length ≠ a.values.length
        · unfold merge_matched_clauses
          rw [if_pos hau, if_pos hal]
        · unfold merge_matched_clauses
          rw [if_pos hau, if_neg hal, ih ⟨b, hbr, hbu, hbl⟩]
      · by_cases had : a.action = "DELETE"
        · unfold merge_matched_clauses
          rw [if_neg hau, if_pos had, ih ⟨b, hbr, hbu, hbl⟩]
        · unfold merge_matched_clauses
          rw [if_neg hau, if_neg had]
          exact ih ⟨b, hbr, hbu, hbl⟩

/-- A WHEN NOT MATCHED INSERT action with mismatched lists always surfaces the
length-mismatch failure. -/
theorem merge_not_matched_clauses_mismatch (t : String) :
    ∀ nmas : List MergeAction,
      (∃ a ∈ nmas, a.action = "INSERT" ∧ a.columns.length ≠ a.values.length) →
      merge_not_matched_clauses t nmas =
        .error ⟨"Number of columns does not match number of values in WHEN NOT MATCHED INSERT action",
                "MERGE", t⟩ := by
  intro nmas
  induction nmas with
  | nil =>
    rintro ⟨a, ha, -⟩
    exact absurd ha (List.not_mem_nil a)
  | cons a rest ih =>
    rintro ⟨b, hb, hbu, hbl⟩
    rcases List.mem_cons.mp hb with hba | hbr
    · subst hba
      unfold merge_not_matched_clauses
      rw [if_pos hbu, if_pos hbl]
    · by_cases hau : a.action = "INSERT"
      · by_cases hal : a.columns.length ≠ a.values.length
        · unfold merge_not_matched_clauses
          rw [if_pos hau, if_pos hal]
        · unfold merge_not_matched_clauses
          rw [if_pos hau, if_neg hal, ih ⟨b, hbr, hbu, hbl⟩]
      · unfold merge_not_matched_clauses
        rw [if_neg hau]
        exact ih ⟨b, hbr, hbu, hbl⟩

/-- C3: every insert, update, or merge-action request with mismatched
column/value list lengths fails before any statement reaches the connection
(the execution trace is empty); with a valid three-part table the failure is
the specific length-mismatch `DMLException`. -/
theorem dml_length_mismatch_validation :
    (∀ (conn : Conn) (t : String) (cols : List String) (vals : List Value),
       cols.length ≠ vals.length →
       ∃ e, insert_data conn t cols vals = (.error e, [])) ∧
    (∀ (conn : Conn) (t : String) (cols : List String) (vals : List Value),
       (py_split '.' t).length = 3 → cols.length ≠ vals.length →
       insert_data conn t cols vals =
         (.error ⟨"Number of columns does not match number of values", "INSERT", t⟩, [])) ∧
    (∀ (conn : Conn) (t : String) (cols : List String) (vals : List Value) (w : String),
       cols.length ≠ vals.length →
       ∃ e, update_data conn t cols vals w = (.error e, [])) ∧
    (∀ (conn : Conn) (t : String) (cols : List String) (vals : List Value) (w : String),
       (py_split '.' t).length = 3 → cols.length ≠ vals.length →
       update_data conn t cols vals w =
         (.error ⟨"Number of columns does not match number of values", "UPDATE", t⟩, [])) ∧
    (∀ (conn : Conn) (t s c : String) (mas : List MergeAction)
       (nma : Option (List MergeAction)),
       (∃ a ∈ mas, a.action = "UPDATE" ∧ a.columns.length ≠ a.values.length) →
       ∃ e, merge_data conn t s c mas nma = (.error e, [])) ∧
    (∀ (conn : Conn) (t s c : String) (mas nmas : List MergeAction),
       (∃ a ∈ nmas, a.action = "INSERT" ∧ a.columns.length ≠ a.values.length) →
       ∃ e, merge_data conn t s c mas (some nmas) = (.error e, [])) := by
  refine ⟨?_, ?_, ?_, ?_, ?_, ?_⟩
  · intro conn t cols vals h
    by_cases h3 : (py_split '.' t).length ≠ 3
    · exact ⟨_, by unfold insert_data; rw [if_pos h3]⟩
    · exact ⟨_, by unfold insert_data; rw [if_neg h3, if_pos h]⟩
  · intro conn t cols vals h3 h
    unfold insert_data
    rw [if_neg (fun k => k h3), if_pos h]
  · intro conn t cols vals w h
    by_cases h3 : (py_split '.' t).length ≠ 3
    · exact ⟨_, by unfold update_data; rw [if_pos h3]⟩
    · exact ⟨_, by unfold update_data; rw [if_neg h3, if_pos h]⟩
  · intro conn t cols vals w h3 h
    unfold update_data
    rw [if_neg (fun k => k h3), if_pos h]
  · intro conn t s c mas nma h
    by_cases h3 : (py_split '.' t).length ≠ 3
    · exact ⟨_, merge_data_table_error conn t s c mas nma h3⟩
    · have h3' : (py_split '.' t).length = 3 := not_ne_iff.mp h3
      exact ⟨_, merge_data_matched_error conn t s c mas nma _ h3'
        (merge_matched_clauses_mismatch t mas h)⟩
  · intro conn t s c mas nmas h
    by_cases h3 : (py_split '.' t).length ≠ 3
    · exact ⟨_, merge_data_table_error conn t s c mas (some nmas) h3⟩
    · have h3' : (py_split '.' t).length = 3 := not_ne_iff.mp h3
      rcases hm : merge_matched_clauses t mas with e | mc
      · exact ⟨e, merge_data_matched_error conn t s c mas (some nmas) e h3' hm⟩
      · exact ⟨_, merge_data_not_matched_error conn t s c mas nmas mc _ h3' hm
          (merge_not_matched_clauses_mismatch t nmas h)⟩

/-- C3 witness: concrete mismatched requests for each operation kind. -/
theorem dml_length_mismatch_validation_witness :
    (∃ e, insert_data (fun _ => .ok ([], 1)) "db.schema.table" ["a"] [] =
       (.error e, [])) ∧
    (insert_data (fun _ => .ok ([], 1)) "db.schema.table" ["a"] [] =
       (.error ⟨"Number of columns does not match number of values", "INSERT",
                "db.schema.table"⟩, [])) ∧
    (∃ e, update_data (fun _ => .ok ([], 1)) "db.schema.table" ["a"] [] "id = 1" =
       (.error e, [])) ∧
    (update_data (fun _ => .ok ([], 1)) "db.schema.table" ["a"] [] "id = 1" =
       (.error ⟨"Number of columns does not match number of values", "UPDATE",
                "db.schema.table"⟩, [])) ∧
    (∃ e, merge_data (fun _ => .ok ([], 1)) "db.schema.table" "src" "cond"
       [⟨"UPDATE", ["a"], []⟩] none = (.error e, [])) ∧
    (∃ e, merge_data (fun _ => .ok ([], 1)) "db.schema.table" "src" "cond"
       [⟨"DELETE", [], []⟩] (some [⟨"INSERT", ["a"], []⟩]) = (.error e, [])) :=
  ⟨dml_length_mismatch_validation.1 _ "db.schema.table" ["a"] [] (by decide),
   dml_length_mismatch_validation.2.1 _ "db.schema.table" ["a"] [] (by decide) (by decide),
   dml_length_mismatch_validation.2.2.1 _ "db.schema.table" ["a"] [] "id = 1" (by decide),
   dml_length_mismatch_validation.2.2.2.1 _ "db.schema.table" ["a"] [] "id = 1"
     (by decide) (by decide),
   dml_length_mismatch_validation.2.2.2.2.1 _ "db.schema.table" "src" "cond"
     [⟨"UPDATE", ["a"], []⟩] none (by decide),
   dml_length_mismatch_validation.2.2.2.2.2 _ "db.schema.table" "src" "cond"
     [⟨"DELETE", [], []⟩] [⟨"INSERT", ["a"], []⟩] (by decide)⟩

/-- C4 (amended): every `DMLManager` operation rejects a table name that does
not split into exactly three dot-separated parts with a `DMLException` naming
that table, before any SQL reaches the connection; the tool-level
`update_data`, however, bypasses this validation and executes its raw UPDATE
statement for any table name once credentials resolve. -/
theorem dml_table_qualification_validation :
    (∀ (conn : Conn) (t : String) cols w ob l o, (py_split '.' t).length ≠ 3 →
       select_data conn t cols w ob l o =
         (.error ⟨"Table name must be fully qualified as \x27database.schema.table\x27",
                  "SELECT", t⟩, [])) ∧
    (∀ (conn : Conn) (t : String) cols vals, (py_split '.' t).length ≠ 3 →
       insert_data conn t cols vals =
         (.error ⟨"Table name must be fully qualified as \x27database.schema.table\x27",
                  "INSERT", t⟩, [])) ∧
    (∀ (conn : Conn) (t : String) cols vals w, (py_split '.' t).length ≠ 3 →
       update_data conn t cols vals w =
         (.error ⟨"Table name must be fully qualified as \x27database.schema.table\x27",
                  "UPDATE", t⟩, [])) ∧
    (∀ (conn : Conn) (t : String) w, (py_split '.' t).length ≠ 3 →
       delete_data conn t w =
         (.error ⟨"Table name must be fully qualified as \x27database.schema.table\x27",
                  "DELETE", t⟩, [])) ∧
    (∀ (conn : Conn) (t s c : String) mas nma, (py_split '.' t).length ≠ 3 →
       merge_data conn t s c mas nma =
         (.error ⟨"Target table name must be fully qualified as \x27database.schema.table\x27",
                  "MERGE", t⟩, [])) ∧
    (∀ (env : Env) (conn : Conn) (t sc w : String) cr,
       get_snowflake_credentials env = .ok cr →
       (tool_update_data env conn t sc w).2 =
         ["UPDATE " ++ t ++ " SET " ++ sc ++ " WHERE " ++ w]) := by
  refine ⟨?_, ?_, ?_, ?_, ?_, ?_⟩
  · intro conn t cols w ob l o h3
    unfold select_data
    rw [if_pos h3]
  · intro conn t cols vals h3
    unfold insert_data
    rw [if_pos h3]
  · intro conn t cols vals w h3
    unfold update_data
    rw [if_pos h3]
  · intro conn t w h3
    unfold delete_data
    rw [if_pos h3]
  · intro conn t s c mas nma h3
    exact merge_data_table_error conn t s c mas nma h3
  · intro env conn t sc w cr hcr
    unfold tool_update_data
    rw [hcr]
    rcases hE : execute_dml conn ("UPDATE " ++ t ++ " SET " ++ sc ++ " WHERE " ++ w)
      with ⟨res, tr⟩
    have htr : tr = ["UPDATE " ++ t ++ " SET " ++ sc ++ " WHERE " ++ w] := by
      have h := execute_dml_trace conn ("UPDATE " ++ t ++ " SET " ++ sc ++ " WHERE " ++ w)
      rw [hE] at h
      exact h
    cases res with
    | error e => exact htr
    | ok r =>
      obtain ⟨rs, rm, rr, ra⟩ := r
      cases rs <;> exact htr

/-- C4 counterexample: the externally callable `update_data` tool builds and
executes `UPDATE badtable SET x = 1 WHERE id = 1` even though `badtable` has
one dot-separated part, not three — no validation failure occurs. -/
theorem tool_update_data_skips_table_validation :
    (py_split '.' "badtable").length ≠ 3 ∧
    tool_update_data
      ⟨fun n => if n == "SNOWFLAKE_ACCOUNT" then some "acct"
        else if n == "SNOWFLAKE_USER" then some "u"
        else if n == "SNOWFLAKE_PAT" then some "p" else none⟩
      (fun _ => .ok ([], 1)) "badtable" "x = 1" "id = 1" =
      (.ok ⟨true, "DML operation executed successfully", [], 1⟩,
       ["UPDATE badtable SET x = 1 WHERE id = 1"]) :=
  ⟨by decide, rfl⟩

/-- C4 witness: concrete malformed table names for each manager operation,
plus the tool-level raw-UPDATE path. -/
theorem dml_table_qualification_validation_witness :
    (select_data (fun _ => .ok ([], 1)) "badtable" none none none none none =
      (.error ⟨"Table name must be fully qualified as \x27database.schema.table\x27",
               "SELECT", "badtable"⟩, [])) ∧
    (insert_data (fun _ => .ok ([], 1)) "badtable" ["a"] [.vInt 1] =
      (.error ⟨"Table name must be fully qualified as \x27database.schema.table\x27",
               "INSERT", "badtable"⟩, [])) ∧
    (update_data (fun _ => .ok ([], 1)) "badtable" ["a"] [.vInt 1] "id = 1" =
      (.error ⟨"Table name must be fully qualified as \x27database.schema.table\x27",
               "UPDATE", "badtable"⟩, [])) ∧
    (delete_data (fun _ => .ok ([], 1)) "badtable" "id = 1" =
      (.error ⟨"Table name must be fully qualified as \x27database.schema.table\x27",
               "DELETE", "badtable"⟩, [])) ∧
    (merge_data (fun _ => .ok ([], 1)) "badtable" "src" "cond" [] none =
      (.error ⟨"Target table name must be fully qualified as \x27database.schema.table\x27",
               "MERGE", "badtable"⟩, [])) ∧
    ((tool_update_data ⟨fun n => if n == "SNOWFLAKE_ACCOUNT" then some "acct"
        else if n == "SNOWFLAKE_USER" then some "u"
        else if n == "SNOWFLAKE_PAT" then some "p" else none⟩
      (fun _ => .ok ([], 1)) "tbl" "x = 1" "id = 1").2 =
      ["UPDATE " ++ "tbl" ++ " SET " ++ "x = 1" ++ " WHERE " ++ "id = 1"]) :=
  ⟨dml_table_qualification_validation.1 _ "badtable" none none none none none (by decide),
   dml_table_qualification_validation.2.1 _ "badtable" ["a"] [.vInt 1] (by decide),
   dml_table_qualification_validation.2.2.1 _ "badtable" ["a"] [.vInt 1] "id = 1" (by decide),
   dml_table_qualification_validation.2.2.2.1 _ "badtable" "id = 1" (by decide),
   dml_table_qualification_validation.2.2.2.2.1 _ "badtable" "src" "cond" [] none (by decide),
   dml_table_qualification_validation.2.2.2.2.2
     ⟨fun n => if n == "SNOWFLAKE_ACCOUNT" then some "acct"
        else if n == "SNOWFLAKE_USER" then some "u"
        else if n == "SNOWFLAKE_PAT" then some "p" else none⟩
     (fun _ => .ok ([], 1)) "tbl" "x = 1" "id = 1" ("acct", "u", "p") rfl⟩

/-- C9: the externally callable `merge_data` tool rejects an empty
matched-actions list with the "At least one match action is required"
validation failure before credential lookup, manager construction, or any SQL
execution (the trace is empty), rather than building a MERGE statement with no
WHEN clauses. -/
theorem tool_merge_data_requires_match_actions :
    ∀ (env : Env) (conn : Conn) (t s c : String) (nma : Option (List MergeAction)),
      py_strip t ≠ "" → py_strip s ≠ "" → py_strip c ≠ "" →
      tool_merge_data env conn t s c [] nma =
        (.error (.validation ⟨"At least one match action is required",
                              "match_actions", "[]"⟩), []) := by
  intro env conn t s c nma ht hs hc
  have ht0 : t ≠ "" := fun h => ht (by rw [h]; rfl)
  have hs0 : s ≠ "" := fun h => hs (by rw [h]; rfl)
  have hc0 : c ≠ "" := fun h => hc (by rw [h]; rfl)
  have hbt : ¬((t == "" || py_strip t == "") = true) := by
    simp [ht0, ht]
  have hbs : ¬((s == "" || py_strip s == "") = true) := by
    simp [hs0, hs]
  have hbc : ¬((c == "" || py_strip c == "") = true) := by
    simp [hc0, hc]
  unfold tool_merge_data
  rw [if_neg hbt, if_neg hbs, if_neg hbc]
  rfl

/-- C9 witness: a concrete call with an empty matched-actions list. -/
theorem tool_merge_data_requires_match_actions_witness :
    tool_merge_data ⟨fun _ => none⟩ (fun _ => .ok ([], 1)) "d.s.t" "src" "c" [] none =
      (.error (.validation ⟨"At least one match action is required",
                            "match_actions", "[]"⟩), []) :=
  tool_merge_data_requires_match_actions ⟨fun _ => none⟩ (fun _ => .ok ([], 1))
    "d.s.t" "src" "c" none (by decide) (by decide) (by decide)


/-- C7: whenever a SQL-bearing argument contains the substring
`"drop database"` in any letter case, the security middleware emits at least
one warning and still forwards the call to the next layer with the context
unchanged — detection only, never blocking. -/
theorem security_middleware_detects_and_forwards :
    ∀ {α : Type} (ctx : MiddlewareCtx) (next : MiddlewareCtx → α) (f v : String),
      f ∈ sql_fields → lookup_arg ctx.arguments f = some v → v ≠ "" →
      py_in "drop database" (py_lower v) = true →
      security_warnings ctx ≠ [] ∧
      security_on_call_tool ctx next = (security_warnings ctx, next ctx) := by
  intro α ctx next f v hf hlk hv hin
  refine ⟨?_, rfl⟩
  have hfw : field_warnings ctx f ≠ [] := by
    unfold field_warnings
    rw [hlk]
    show (if (v == "") = true then []
          else
            match DANGEROUS_KEYWORDS.find? (fun k => py_in k (py_lower v)) with
            | some k => ["Potentially dangerous SQL operation detected in tool \x27" ++
                         ctx.tool_name ++ "\x27: " ++ k]
            | none => []) ≠ []
    have hvb : ¬((v == "") = true) := by simp [hv]
    rw [if_neg hvb]
    rcases hfind : DANGEROUS_KEYWORDS.find? (fun k => py_in k (py_lower v)) with _ | k
    · have hnone := List.find?_eq_none.mp hfind "drop database" (by decide)
      simp [hin] at hnone
    · simp
  exact flatten_ne_nil_of_mem (List.mem_map_of_mem (field_warnings ctx) hf) hfw

/-- C7 witness: a `query` argument containing `DROP DATABASE` in upper case. -/
theorem security_middleware_detects_and_forwards_witness :
    security_warnings ⟨"execute_ddl_statement", [("query", "DROP DATABASE prod")]⟩ ≠ [] ∧
    security_on_call_tool ⟨"execute_ddl_statement", [("query", "DROP DATABASE prod")]⟩
        (fun c => c.tool_name) =
      (security_warnings ⟨"execute_ddl_statement", [("query", "DROP DATABASE prod")]⟩,
       "execute_ddl_statement") :=
  security_middleware_detects_and_forwards
    ⟨"execute_ddl_statement", [("query", "DROP DATABASE prod")]⟩ (fun c => c.tool_name)
    "query" "DROP DATABASE prod" (by decide) rfl (by decide) (by decide)

/-- C8: credential resolution precedence is explicit argument, then primary
environment variable, then (for the secret only) the secondary fallback
variable; whenever any of the three stays unresolved, the connection attempt
fails with a list enumerating exactly the missing items. -/
theorem credential_resolution_and_missing_enumeration :
    (∀ (env : Env) (s : String), s ≠ "" → resolved_account env (some s) = some s) ∧
    (∀ env : Env, resolved_account env none = env.get "SNOWFLAKE_ACCOUNT") ∧
    (∀ (env : Env) (s : String), s ≠ "" → resolved_username env (some s) = some s) ∧
    (∀ env : Env, resolved_username env none = env.get "SNOWFLAKE_USER") ∧
    (∀ (env : Env) (s : String), s ≠ "" → resolved_password env (some s) = some s) ∧
    (∀ (env : Env) (s : String), env.get "SNOWFLAKE_PAT" = some s → s ≠ "" →
       resolved_password env none = some s) ∧
    (∀ env : Env, truthyStr (env.get "SNOWFLAKE_PAT") = false →
       resolved_password env none = env.get "SNOWFLAKE_PASSWORD") ∧
    (∀ (env : Env) (a u p : Option String),
       truthyStr (resolved_account env a) = false ∨
       truthyStr (resolved_username env u) = false ∨
       truthyStr (resolved_password env p) = false →
       get_snowflake_connection env a u p = .error (missing_credentials env a u p) ∧
       (missing_account_msg ∈ missing_credentials env a u p ↔
          truthyStr (resolved_account env a) = false) ∧
       (missing_username_msg ∈ missing_credentials env a u p ↔
          truthyStr (resolved_username env u) = false) ∧
       (missing_password_msg ∈ missing_credentials env a u p ↔
          truthyStr (resolved_password env p) = false)) := by
  refine ⟨?_, ?_, ?_, ?_, ?_, ?_, ?_, ?_⟩
  · intro env s h
    unfold resolved_account py_or
    rw [if_pos (by simp [truthyStr, h])]
  · intro env
    rfl
  · intro env s h
    unfold resolved_username py_or
    rw [if_pos (by simp [truthyStr, h])]
  · intro env
    rfl
  · intro env s h
    unfold resolved_password py_or
    rw [if_pos (by simp [truthyStr, h])]
  · intro env s hs h
    unfold resolved_password py_or
    rw [hs]
    simp [truthyStr, h]
  · intro env h
    unfold resolved_password py_or
    simp only [h]
    rfl
  · intro env a u p hd
    cases hA : truthyStr (resolved_account env a) <;>
      cases hB : truthyStr (resolved_username env u) <;>
        cases hC : truthyStr (resolved_password env p)
    case true.true.true =>
      rw [hA, hB, hC] at hd
      simp at hd
    all_goals
      refine ⟨?_, ?_, ?_, ?_⟩ <;>
        simp [get_snowflake_connection, missing_credentials, missing_account_msg,
          missing_username_msg, missing_password_msg, hA, hB, hC]

/-- C8 witness: an environment with only the secondary password variable set,
an explicit account argument, and no username from anywhere. -/
theorem credential_resolution_witness :
    (resolved_account ⟨fun n => if n == "SNOWFLAKE_PASSWORD" then some "pw" else none⟩
       (some "acct") = some "acct") ∧
    (resolved_password ⟨fun n => if n == "SNOWFLAKE_PASSWORD" then some "pw" else none⟩
       none = some "pw") ∧
    (get_snowflake_connection ⟨fun n => if n == "SNOWFLAKE_PASSWORD" then some "pw" else none⟩
       (some "acct") none none =
       .error (missing_credentials
         ⟨fun n => if n == "SNOWFLAKE_PASSWORD" then some "pw" else none⟩
         (some "acct") none none)) ∧
    (missing_username_msg ∈ missing_credentials
       ⟨fun n => if n == "SNOWFLAKE_PASSWORD" then some "pw" else none⟩
       (some "acct") none none) ∧
    ¬(missing_account_msg ∈ missing_credentials
       ⟨fun n => if n == "SNOWFLAKE_PASSWORD" then some "pw" else none⟩
       (some "acct") none none) := by
  have h := credential_resolution_and_missing_enumeration
  have h8 := h.2.2.2.2.2.2.2
    ⟨fun n => if n == "SNOWFLAKE_PASSWORD" then some "pw" else none⟩
    (some "acct") none none (Or.inr (Or.inl (by decide)))
  exact ⟨h.1 _ "acct" (by decide),
    (h.2.2.2.2.2.2.1 _ (by decide)).trans rfl,
    h8.1, h8.2.2.1.mpr (by decide),
    fun hm => absurd (h8.2.1.mp hm) (by decide)⟩


/-! ### Substring-counting lemmas for the MERGE clause structure -/

theorem countOcc_skip_cons (c x : Char) (p b : List Char) (hx : x ≠ c) :
    countOcc (c :: p) (x :: b) = countOcc (c :: p) b := by
  have hcx : (c == x) = false := by
    simp only [beq_eq_false_iff_ne]
    exact Ne.symm hx
  have hpre : (c :: p).isPrefixOf (x :: b) = false := by
    simp [List.isPrefixOf, hcx]
  rw [countOcc_cons, hpre]
  simp

/-- Counting across a block that is exactly the pattern: one occurrence starts
here, and (since the head character does not recur in the pattern tail) no
other occurrence starts inside the block. -/
theorem countOcc_block_start (c : Char) (p rest : List Char) (hp : c ∉ p) :
    countOcc (c :: p) ((c :: p) ++ rest) = 1 + countOcc (c :: p) rest := by
  rw [List.cons_append, countOcc_cons, ← List.cons_append, isPrefixOf_self_append,
      countOcc_skip _ _ hp]
  simp

/-- Counting across a block whose head matches the pattern head but which is
long enough to decide the prefix test negatively: no occurrence starts in it. -/
theorem countOcc_block_no_start (c : Char) (p d rest : List Char)
    (hlen : (c :: p).length ≤ (c :: d).length)
    (hpre : (c :: p).isPrefixOf (c :: d) = false)
    (hd_no : c ∉ d) :
    countOcc (c :: p) ((c :: d) ++ rest) = countOcc (c :: p) rest := by
  rw [List.cons_append, countOcc_cons, ← List.cons_append,
      isPrefixOf_append_of_le _ _ _ hlen, hpre, countOcc_skip _ _ hd_no]
  simp

/-- Each clause marker occurs exactly once in the assembled single-action
MERGE text, provided the interpolated fragments contain no `W`. -/
theorem countOcc_merge_markers (hd S C V : List Char)
    (hH : 'W' ∉ hd) (hS : 'W' ∉ S) (hC : 'W' ∉ C) (hV : 'W' ∉ V) :
    countOcc matched_marker.data
      (hd ++ ('\n' :: ("WHEN MATCHED THEN UPDATE SET".data ++
        ([' '] ++ (S ++ ('\n' :: ("WHEN NOT MATCHED THEN INSERT".data ++
          (" (".data ++ (C ++ (") VALUES (".data ++ (V ++ ")".data))))))))))) = 1 ∧
    countOcc not_matched_marker.data
      (hd ++ ('\n' :: ("WHEN MATCHED THEN UPDATE SET".data ++
        ([' '] ++ (S ++ ('\n' :: ("WHEN NOT MATCHED THEN INSERT".data ++
          (" (".data ++ (C ++ (") VALUES (".data ++ (V ++ ")".data))))))))))) = 1 := by
  have eM1 : matched_marker.data = 'W' :: "HEN MATCHED THEN UPDATE SET".data := by decide
  have eM2 : not_matched_marker.data = 'W' :: "HEN NOT MATCHED THEN INSERT".data := by decide
  have eA1 : "WHEN MATCHED THEN UPDATE SET".data =
      'W' :: "HEN MATCHED THEN UPDATE SET".data := by decide
  have eA2 : "WHEN NOT MATCHED THEN INSERT".data =
      'W' :: "HEN NOT MATCHED THEN INSERT".data := by decide
  have hM1t : ('W' : Char) ∉ "HEN MATCHED THEN UPDATE SET".data := by decide
  have hM2t : ('W' : Char) ∉ "HEN NOT MATCHED THEN INSERT".data := by decide
  have hsp : ('W' : Char) ∉ [' '] := by decide
  have hRest2 : ('W' : Char) ∉
      (" (".data ++ (C ++ (") VALUES (".data ++ (V ++ ")".data)))) := by
    simp only [List.mem_append]
    rintro (h | h | h | h | h)
    · exact absurd h (by decide)
    · exact hC h
    · exact absurd h (by decide)
    · exact hV h
    · exact absurd h (by decide)
  constructor
  · rw [eM1, countOcc_skip _ _ hH, countOcc_skip_cons _ _ _ _ (by decide), eA1,
        countOcc_block_start _ _ _ hM1t, countOcc_skip _ _ hsp, countOcc_skip _ _ hS,
        countOcc_skip_cons _ _ _ _ (by decide), eA2,
        countOcc_block_no_start _ _ _ _ (by decide) (by decide) hM2t,
        countOcc_eq_zero _ hRest2]
  · rw [eM2, countOcc_skip _ _ hH, countOcc_skip_cons _ _ _ _ (by decide), eA1,
        countOcc_block_no_start _ _ _ _ (by decide) (by decide) hM1t,
        countOcc_skip _ _ hsp, countOcc_skip _ _ hS,
        countOcc_skip_cons _ _ _ _ (by decide), eA2,
        countOcc_block_start _ _ _ hM2t,
        countOcc_eq_zero _ hRest2]


/-- C5 (amended): a `merge_data` call with exactly one matched UPDATE action
and one not-matched INSERT action (matching lengths, three-part target, and no
fragment containing the letter `W`, so that the caller-supplied text cannot
re-introduce the clause keywords) executes SQL containing exactly one
`WHEN MATCHED THEN UPDATE SET` clause and exactly one
`WHEN NOT MATCHED THEN INSERT` clause, the matched clause first. -/
theorem merge_data_single_actions_clause_structure :
    ∀ (conn : Conn) (t s c : String) (cs1 : List String) (vs1 : List Value)
      (cs2 : List String) (vs2 : List Value),
      (py_split '.' t).length = 3 →
      cs1.length = vs1.length → cs2.length = vs2.length →
      'W' ∉ t.data → 'W' ∉ s.data → 'W' ∉ c.data →
      (∀ x ∈ cs1, 'W' ∉ x.data) → (∀ v ∈ vs1, 'W' ∉ (formatValue v).data) →
      (∀ x ∈ cs2, 'W' ∉ x.data) → (∀ v ∈ vs2, 'W' ∉ (formatValue v).data) →
      ∃ sql, (merge_data conn t s c [⟨"UPDATE", cs1, vs1⟩]
                (some [⟨"INSERT", cs2, vs2⟩])).2 = [sql] ∧
        countOcc matched_marker.data sql.data = 1 ∧
        countOcc not_matched_marker.data sql.data = 1 ∧
        ∃ u v w, sql.data =
          u ++ (matched_marker.data ++ (v ++ (not_matched_marker.data ++ w))) := by
  intro conn t s c cs1 vs1 cs2 vs2 h3 hl1 hl2 ht hs hc hcs1 hvs1 hcs2 hvs2
  have hmc : merge_matched_clauses t [⟨"UPDATE", cs1, vs1⟩] =
      .ok ("\nWHEN MATCHED THEN UPDATE SET " ++
        join_sep ", " ((cs1.zip vs1).map (fun cv => set_clause_item cv.1 cv.2)) ++ "") := by
    unfold merge_matched_clauses
    rw [if_pos rfl, if_neg (fun k => k hl1)]
    rfl
  have hnmc : merge_not_matched_clauses t [⟨"INSERT", cs2, vs2⟩] =
      .ok ("\nWHEN NOT MATCHED THEN INSERT (" ++ join_sep ", " cs2 ++
        ") VALUES (" ++ join_sep ", " (vs2.map formatValue) ++ ")" ++ "") := by
    unfold merge_not_matched_clauses
    rw [if_pos rfl, if_neg (fun k => k hl2)]
    rfl
  have hmerge := merge_data_ok conn t s c [⟨"UPDATE", cs1, vs1⟩] [⟨"INSERT", cs2, vs2⟩]
    _ _ h3 hmc hnmc
  have hHd : 'W' ∉ (merge_header t s c).data := by
    unfold merge_header
    simp only [String.data_append, List.append_assoc, List.mem_append]
    rintro (h | h | h | h | h | h | h)
    · exact absurd h (by decide)
    · exact ht h
    · exact absurd h (by decide)
    · exact hs h
    · exact absurd h (by decide)
    · exact hc h
    · exact absurd h (by decide)
  have hSW : 'W' ∉ (join_sep ", "
      ((cs1.zip vs1).map (fun cv => set_clause_item cv.1 cv.2))).data := by
    refine not_mem_join_sep _ _ (by decide) ?_
    intro x hx
    rcases List.mem_map.mp hx with ⟨cv, hcv, hxe⟩
    subst hxe
    unfold set_clause_item
    simp only [String.data_append, List.append_assoc, List.mem_append]
    rintro (h | h | h)
    · exact hcs1 cv.1 (List.of_mem_zip hcv).1 h
    · exact absurd h (by decide)
    · exact hvs1 cv.2 (List.of_mem_zip hcv).2 h
  have hCW : 'W' ∉ (join_sep ", " cs2).data :=
    not_mem_join_sep _ _ (by decide) (fun x hx => hcs2 x hx)
  have hVW : 'W' ∉ (join_sep ", " (vs2.map formatValue)).data := by
    refine not_mem_join_sep _ _ (by decide) ?_
    intro x hx
    rcases List.mem_map.mp hx with ⟨v, hv, hxe⟩
    subst hxe
    exact hvs2 v hv
  have eL1 : "\nWHEN MATCHED THEN UPDATE SET ".data =
      '\n' :: ("WHEN MATCHED THEN UPDATE SET".data ++ [' ']) := by decide
  have eL2 : "\nWHEN NOT MATCHED THEN INSERT (".data =
      '\n' :: ("WHEN NOT MATCHED THEN INSERT".data ++ " (".data) := by decide
  have hT : (merge_header t s c ++
      ("\nWHEN MATCHED THEN UPDATE SET " ++
        join_sep ", " ((cs1.zip vs1).map (fun cv => set_clause_item cv.1 cv.2)) ++ "") ++
      ("\nWHEN NOT MATCHED THEN INSERT (" ++ join_sep ", " cs2 ++
        ") VALUES (" ++ join_sep ", " (vs2.map formatValue) ++ ")" ++ "")).data =
      (merge_header t s c).data ++ ('\n' :: ("WHEN MATCHED THEN UPDATE SET".data ++
        ([' '] ++ ((join_sep ", "
            ((cs1.zip vs1).map (fun cv => set_clause_item cv.1 cv.2))).data ++
          ('\n' :: ("WHEN NOT MATCHED THEN INSERT".data ++
            (" (".data ++ ((join_sep ", " cs2).data ++
              (") VALUES (".data ++ ((join_sep ", " (vs2.map formatValue)).data ++
                ")".data)))))))))) := by
    simp [String.data_append, List.append_assoc, eL1, eL2]
  refine ⟨merge_header t s c ++
      ("\nWHEN MATCHED THEN UPDATE SET " ++
        join_sep ", " ((cs1.zip vs1).map (fun cv => set_clause_item cv.1 cv.2)) ++ "") ++
      ("\nWHEN NOT MATCHED THEN INSERT (" ++ join_sep ", " cs2 ++
        ") VALUES (" ++ join_sep ", " (vs2.map formatValue) ++ ")" ++ ""), ?_, ?_, ?_, ?_⟩
  · rw [hmerge, execute_dml_trace]
  · rw [hT]
    exact (countOcc_merge_markers _ _ _ _ hHd hSW hCW hVW).1
  · rw [hT]
    exact (countOcc_merge_markers _ _ _ _ hHd hSW hCW hVW).2
  · refine ⟨(merge_header t s c).data ++ ['\n'],
      [' '] ++ ((join_sep ", "
        ((cs1.zip vs1).map (fun cv => set_clause_item cv.1 cv.2))).data ++ ['\n']),
      " (".data ++ ((join_sep ", " cs2).data ++
        (") VALUES (".data ++ ((join_sep ", " (vs2.map formatValue)).data ++
          ")".data))), ?_⟩
    rw [hT]
    simp [matched_marker, not_matched_marker, List.append_assoc]

/-- C5 witness: one matched UPDATE action and one not-matched INSERT action on
concrete `W`-free inputs. -/
theorem merge_data_single_actions_clause_structure_witness :
    ∃ sql, (merge_data (fun _ => .ok ([], 1)) "d.s.t" "src" "cond"
              [⟨"UPDATE", ["a"], [.vInt 1]⟩]
              (some [⟨"INSERT", ["b"], [.vStr "x"]⟩])).2 = [sql] ∧
      countOcc matched_marker.data sql.data = 1 ∧
      countOcc not_matched_marker.data sql.data = 1 ∧
      ∃ u v w, sql.data =
        u ++ (matched_marker.data ++ (v ++ (not_matched_marker.data ++ w))) :=
  merge_data_single_actions_clause_structure (fun _ => .ok ([], 1)) "d.s.t" "src" "cond"
    ["a"] [.vInt 1] ["b"] [.vStr "x"]
    (by decide) (by decide) (by decide) (by decide) (by decide) (by decide)
    (by decide) (by decide) (by decide) (by decide)

/-- C5 counterexample: the same single-action shape, but with the clause text
injected through `source_table`; the executed SQL then contains two
`WHEN MATCHED THEN UPDATE SET` substrings, so the count-exactly-one claim
fails as stated for arbitrary fragments. -/
theorem merge_data_marker_injection_counterexample :
    (merge_data (fun _ => .ok ([], 1)) "d.s.t"
      "x WHEN MATCHED THEN UPDATE SET y = 1" "c"
      [⟨"UPDATE", ["a"], [.vInt 1]⟩] (some [⟨"INSERT", ["a"], [.vInt 1]⟩])).2 =
      ["\n        MERGE INTO d.s.t AS target\n        USING x WHEN MATCHED THEN UPDATE SET y = 1 AS source\n        ON c\n        \nWHEN MATCHED THEN UPDATE SET a = 1\nWHEN NOT MATCHED THEN INSERT (a) VALUES (1)"] ∧
    countOcc matched_marker.data
      "\n        MERGE INTO d.s.t AS target\n        USING x WHEN MATCHED THEN UPDATE SET y = 1 AS source\n        ON c\n        \nWHEN MATCHED THEN UPDATE SET a = 1\nWHEN NOT MATCHED THEN INSERT (a) VALUES (1)".data = 2 :=
  ⟨rfl, by decide⟩

end SnowflakeKit

